import Mathlib

/-!
Verification of the wazo-agid call-handling core: a shallow embedding of
the FastAGI protocol engine (`wazo_agid/fastagi.py`) and the dial-plan
decision objects (`wazo_agid/objects.py`), with theorems checking the
natural-language specification against the code.

Strings are modelled as Lean `String` / `List Char`; Python `str.strip`,
`str.upper`, single-character `str.replace` and the two regular
expressions (`re_code`, `re_kv`, `CALLERID_MATCHER`, `CALLERIDNUM_MATCHER`)
are translated operationally, preserving greedy/backtracking behaviour.
Database rows and channel I/O are passed in explicitly.
-/

/-- Python whitespace characters (the default `str.strip` / `\s` set, ASCII part). -/
def pyIsWs (c : Char) : Bool :=
  c = ' ' || c = '\t' || c = '\n' || c = '\r' || c = Char.ofNat 11 || c = Char.ofNat 12

/-- Python `str.strip()` on the character list of a string. -/
def pyStrip (l : List Char) : List Char :=
  ((l.dropWhile pyIsWs).reverse.dropWhile pyIsWs).reverse

/-- Python `str.replace(c, r)` for a single-character pattern: substitute every
occurrence of `c` by the character list `r`. -/
def replaceChar (c : Char) (r : List Char) : List Char → List Char
  | [] => []
  | x :: xs => (if x = c then r else [x]) ++ replaceChar c r xs

/-- Leading decimal digits to a natural number (Python `int` on a digit string). -/
def digitsToNat (l : List Char) : Nat :=
  l.foldl (fun n c => 10 * n + (c.toNat - 48)) 0

/-- Python `str.upper()` (ASCII). -/
def pyUpper (s : String) : String :=
  String.mk (s.data.map Char.toUpper)

/-- Python truthiness of an optional string: `None` and `''` are falsy. -/
def pyTruthy : Option String → Bool
  | none => false
  | some s => s ≠ ""

/-! ## FastAGI._quote (fastagi.py lines 117-126) -/

/-- Model of `FastAGI._quote`: wrap in double quotes after escaping backslash and
double-quote with a backslash and collapsing newlines to a space, via the
chained single-character replaces of the source. -/
def FastAGI_quote (s : String) : String :=
  String.mk
    (Char.ofNat 34 ::
      (replaceChar '\n' [' ']
        (replaceChar (Char.ofNat 34) ['\\', Char.ofNat 34]
          (replaceChar '\\' ['\\', '\\'] s.data))) ++ [Char.ofNat 34])

/-- The per-character escaping function described by the spec: backslash
becomes double backslash, double-quote becomes backslash-quote, newline
becomes a space. -/
def escChar (c : Char) : List Char :=
  if c = '\\' then ['\\', '\\']
  else if c = Char.ofNat 34 then ['\\', Char.ofNat 34]
  else if c = '\n' then [' ']
  else [c]

/-- Single-pass escaping of a whole character list. -/
def pyEscape : List Char → List Char
  | [] => []
  | c :: cs => escChar c ++ pyEscape cs

/-- Unescaping of backslash pairs: a backslash followed by any character
yields that character. -/
def unesc : List Char → List Char
  | [] => []
  | [c] => [c]
  | c :: c2 :: rest =>
    if c = '\\' then c2 :: unesc rest else c :: unesc (c2 :: rest)

/-- Newline-collapsing: replace every newline by a space. -/
def collapseNL (l : List Char) : List Char :=
  l.map (fun c => if c = '\n' then ' ' else c)

/-! ## FastAGI.get_result (fastagi.py lines 161-194) -/

/-- A `key=value (data)` token produced by `re_kv.findall`. -/
structure KVToken where
  key : String
  value : String
  data : String
deriving DecidableEq

/-- Word character of the `\w` class (ASCII). -/
def wordChar (c : Char) : Bool :=
  c.isAlphanum || c = '_'

/-- Split a character list at its last close parenthesis:
`l = content ++ ')' :: after` with no close parenthesis in `after`. -/
def splitLastParen (l : List Char) : Option (List Char × List Char) :=
  let rev := l.reverse
  let pre := rev.takeWhile (fun c => c ≠ ')')
  match rev.drop pre.length with
  | [] => none
  | _ :: contentRev => some (contentRev.reverse, pre.reverse)

/-- The `(?:\((?P<data>.*)\))*` part of `re_kv`: with a greedy `.*`, a single
iteration consumes through the last close parenthesis, after which no further
iteration can match.  Returns the captured data (empty when the group did not
participate) and the remaining input. -/
def parseParens (l : List Char) : List Char × List Char :=
  match l with
  | '(' :: tail =>
    match splitLastParen tail with
    | some (content, after) => (content, after)
    | none => ([], l)
  | _ => ([], l)

/-- One scanning pass of `re_kv.findall`: at each position try to match
`\w+=[^\s]+\s*(?:\((.*)\))*` (the greedy `\w+` run must be immediately
followed by `=`, since a shorter prefix is followed by a word character);
on failure advance one character.  `fuel` bounds the recursion and is
instantiated with the input length. -/
def scanKV (fuel : Nat) (l : List Char) : List KVToken :=
  match fuel, l with
  | 0, _ => []
  | _, [] => []
  | fuel + 1, c :: cs =>
    let run := (c :: cs).takeWhile wordChar
    if run = [] then scanKV fuel cs
    else
      match (c :: cs).drop run.length with
      | '=' :: rest2 =>
        let val := rest2.takeWhile (fun ch => ! pyIsWs ch)
        if val = [] then scanKV fuel cs
        else
          let rest3 := (rest2.drop val.length).dropWhile pyIsWs
          let pr := parseParens rest3
          { key := String.mk run, value := String.mk val, data := String.mk pr.1 }
            :: scanKV fuel pr.2
      | _ => scanKV fuel cs

/-- Model of `re_kv.findall` over a response string. -/
def findallKV (l : List Char) : List KVToken :=
  scanKV l.length l

/-- Python dict insertion: replace in place if the key exists, else append. -/
def insertKV (d : List (String × String × String)) (k v da : String) :
    List (String × String × String) :=
  match d with
  | [] => [(k, v, da)]
  | (k2, p) :: rest =>
    if k2 = k then (k, v, da) :: rest else (k2, p) :: insertKV rest k v da

/-- Dict lookup (total; the `result` key is always present in practice). -/
def dictGet (d : List (String × String × String)) (k : String) : String × String :=
  match d with
  | [] => ("", "")
  | (k2, p) :: rest => if k2 = k then p else dictGet rest k

/-- The initial result mapping `{'result': ('', '')}`. -/
def initDict : List (String × String × String) :=
  [("result", "", "")]

/-- Outcome of `FastAGI.get_result`: a returned mapping or one of the raised
conditions.  `valueError` models `int('')` on a line with no leading digits;
`eof` models blocking forever on an exhausted input. -/
inductive AGIResult where
  | ok (result : List (String × String × String))
  | resultHangup
  | appError
  | invalidCommand (detail : String)
  | usageError (detail : String)
  | unknownError (code : Nat)
  | valueError
  | eof
deriving DecidableEq

/-- The token loop of the code-200 branch: insert each token into the mapping,
raising result-hangup on auxiliary data `hangup` and application-error on
`result=-1`, in source order. -/
def processTokens (d : List (String × String × String)) :
    List KVToken → AGIResult
  | [] => .ok d
  | t :: rest =>
    let d2 := insertKV d t.key t.value t.data
    if t.data = ("hangup") then .resultHangup
    else if t.key = ("result") && t.value = ("-1") then .appError
    else processTokens d2 rest

/-- The code-520 loop: keep reading (and stripping) lines until one whose
first three characters are `520`, accumulating all lines inclusive. -/
def scan520 (acc : List (List Char)) : List String → Option (List (List Char))
  | [] => none
  | raw :: rest =>
    let line := pyStrip raw.data
    if line.take 3 = ['5', '2', '0'] then some (acc ++ [line])
    else scan520 (acc ++ [line]) rest

/-- Join character-list lines with newlines (Python `'\n'.join`). -/
def joinNL : List (List Char) → List Char
  | [] => []
  | [l] => l
  | l :: ls => l ++ '\n' :: joinNL ls

/-- Model of `FastAGI.get_result` over the inbound lines: strip the first line, parse
its leading numeric code, and dispatch on 200 / 510 / 520 / other. -/
def FastAGI_get_result (lines : List String) : AGIResult :=
  match lines with
  | [] => .eof
  | raw :: rest =>
    let line := pyStrip raw.data
    let digits := line.takeWhile Char.isDigit
    if digits = [] then .valueError
    else
      let code := digitsToNat digits
      let response :=
        ((line.drop digits.length).dropWhile pyIsWs).takeWhile (fun c => c ≠ '\n')
      if code = 200 then processTokens initDict (findallKV response)
      else if code = 510 then .invalidCommand (String.mk response)
      else if code = 520 then
        match scan520 [line] rest with
        | some ls => .usageError (String.mk (joinNL ls ++ ['\n']))
        | none => .eof
      else .unknownError code

/-! ## FastAGI.execute, get_variable, get_full_variable (fastagi.py 132-141, 502-532) -/

/-- Outcome of `FastAGI.execute`: the result (or raised condition) of
`get_result`, the reclassified SIGPIPE hangup, or a propagated I/O error. -/
inductive ExecResult where
  | res (r : AGIResult)
  | sigpipeHangup
  | ioError (errno : Int)
deriving DecidableEq

/-- Model of `FastAGI.execute`: send the command then read the result; an `IOError`
with errno 32 during the write is reclassified as a SIGPIPE hangup, any other
errno propagates.  `send` is the write outcome (`none` = success). -/
def FastAGI_execute (send : Option Int) (lines : List String) : ExecResult :=
  match send with
  | none => .res (FastAGI_get_result lines)
  | some errno => if errno = 32 then .sigpipeHangup else .ioError errno

/-- Outcome of `FastAGI.get_variable` / `get_full_variable`: a returned value
or a propagated exception. -/
inductive GetVarOutcome where
  | val (v : String)
  | raised (e : ExecResult)
deriving DecidableEq

/-- Model of `FastAGI.get_variable`: execute `GET VARIABLE`, catching only the
result-hangup condition, which is replaced by `{'result': ('1', 'hangup')}`;
the returned value is the auxiliary-data component of the `result` entry. -/
def FastAGI_get_variable (name : String) (send : Option Int) (lines : List String) :
    GetVarOutcome :=
  match FastAGI_execute send lines with
  | .res (.ok d) => .val (dictGet d ("result")).2
  | .res .resultHangup => .val ("hangup")
  | e => .raised e

/-- Model of `FastAGI.get_full_variable`: identical read-side behaviour; the channel
argument only changes the outbound command. -/
def FastAGI_get_full_variable (name : String) (channel : Option String)
    (send : Option Int) (lines : List String) : GetVarOutcome :=
  match FastAGI_execute send lines with
  | .res (.ok d) => .val (dictGet d ("result")).2
  | .res .resultHangup => .val ("hangup")
  | e => .raised e

/-! ## DialAction (objects.py lines 540-602) -/

/-- In-memory state of a `DialAction` after construction from the database
lookup result. -/
structure DialActionData where
  event : String
  category : String
  action : String
  actionarg1 : Option String
  actionarg2 : Option String
deriving DecidableEq

/-- Model of `DialAction.__init__`: an absent row yields action `none` with both
args `None`; a present row copies its three columns. -/
def DialAction_init (event category : String)
    (row : Option (String × Option String × Option String)) : DialActionData :=
  match row with
  | none => ⟨event, category, ("none"), none, none⟩
  | some (a, a1, a2) => ⟨event, category, a, a1, a2⟩

/-- Model of `DialAction.set_agi_variables`: the emitted (variable, value) pairs, in
source order.  `actionarg1` has every `|` replaced by `;` when truthy, else
becomes empty; `actionarg2` passes through when truthy, else becomes empty. -/
def DialAction_set_agi_variables (event category action : String)
    (actionarg1 actionarg2 : Option String) (isda : Bool) :
    List (String × String) :=
  let xtype := pyUpper (category ++ ("_") ++ event)
  let arg1 :=
    if pyTruthy actionarg1 then
      String.mk (replaceChar '|' [';'] (actionarg1.getD ("")).data)
    else ("")
  let arg2 := if pyTruthy actionarg2 then actionarg2.getD ("") else ("")
  [(("XIVO_FWD_") ++ xtype ++ ("_ACTION"), action)]
    ++ (if isda then [(("XIVO_FWD_") ++ xtype ++ ("_ISDA"), ("1"))] else [])
    ++ [(("XIVO_FWD_") ++ xtype ++ ("_ACTIONARG1"), arg1),
        (("XIVO_FWD_") ++ xtype ++ ("_ACTIONARG2"), arg2)]

/-- The fixed no-marker category list of `DialAction.set_variables`. -/
def category_no_isda : List String :=
  [("none"), ("endcall:busy"), ("endcall:congestion"), ("endcall:hangup")]

/-- Model of `DialAction.set_variables`: emit with the ISDA marker exactly when the
category is not in the fixed terminal list. -/
def DialAction_set_variables (d : DialActionData) : List (String × String) :=
  DialAction_set_agi_variables d.event d.category d.action d.actionarg1 d.actionarg2
    (! category_no_isda.contains d.category)

/-! ## CallerID.parse (objects.py lines 831-857) -/

/-- Character class of the unquoted-name alternative of `CALLERID_MATCHER`:
`[a-zA-Z0-9\-\.\!%\*_\+`'\~]`. -/
def unquotedNameChar (c : Char) : Bool :=
  c.isAlpha || c.isDigit || c = '-' || c = '.' || c = '!' || c = '%' || c = '*'
    || c = '_' || c = '+' || c = Char.ofNat 96 || c = Char.ofNat 39 || c = '~'

/-- Character class `[0-9\*#]` of the number captures. -/
def cidNumChar (c : Char) : Bool :=
  c.isDigit || c = '*' || c = '#'

/-- Python `$`: end of string, or immediately before a final newline. -/
def endOk : List Char → Bool
  | [] => true
  | ['\n'] => true
  | _ => false

/-- Match `<(\+?[0-9\*#]+)>` followed by end-of-string, returning the capture. -/
def matchAngle : List Char → Option (List Char)
  | '<' :: rest =>
    let (plus, r1) : List Char × List Char :=
      match rest with
      | '+' :: r => (['+'], r)
      | _ => ([], rest)
    let digits := r1.takeWhile cidNumChar
    if digits = [] then none
    else
      match r1.drop digits.length with
      | '>' :: r2 => if endOk r2 then some (plus ++ digits) else none
      | _ => none
  | _ => none

/-- Match the tail ` ?(?:<(\+?[0-9\*#]+)>)?$` of `CALLERID_MATCHER`, preferring
to consume the optional space and the optional angle group (greedy order);
returns the captured number when the group participated. -/
def matchTail (l : List Char) : Option (Option (List Char)) :=
  match l with
  | ' ' :: r =>
    match matchAngle r with
    | some n => some (some n)
    | none => if endOk r then some none else none
  | _ =>
    match matchAngle l with
    | some n => some (some n)
    | none => if endOk l then some none else none

/-- All decompositions `l = pre ++ '"' :: post`, in increasing `pre` length. -/
def splitsAsc : List Char → List (List Char × List Char)
  | [] => []
  | c :: rest =>
    (if c = Char.ofNat 34 then [(([] : List Char), rest)] else [])
      ++ (splitsAsc rest).map (fun p => (c :: p.1, p.2))

/-- The quoted alternative `"(.+)"` of `CALLERID_MATCHER` applied after the
opening quote: greedy `.+` takes the longest newline-free content followed by
a closing quote such that the tail matches. -/
def tryQuoted (rest : List Char) : Option (List Char × Option (List Char)) :=
  ((splitsAsc rest).reverse).findSome? fun p =>
    if p.1 ≠ [] && p.1.all (fun c => c ≠ '\n') then
      (matchTail p.2).map fun n => (p.1, n)
    else none

/-- The unquoted alternative: greedy run of name characters, backtracking to
shorter nonempty prefixes until the tail matches. -/
def tryUnquoted (l : List Char) : Option (List Char × Option (List Char)) :=
  let run := l.takeWhile unquotedNameChar
  if run = [] then none
  else
    let rest := l.drop run.length
    (List.range run.length).findSome? fun i =>
      let k := run.length - i
      (matchTail (run.drop k ++ rest)).map fun n => (run.take k, n)

/-- Model of `CALLERIDNUM_MATCHER`: `^\+?[0-9\*#]+$`. -/
def cidnumMatch (l : List Char) : Bool :=
  let r : List Char :=
    match l with
    | '+' :: t => t
    | _ => l
  let digits := r.takeWhile cidNumChar
  digits ≠ [] && endOk (r.drop digits.length)

/-- Model of `CallerID.parse`: match `CALLERID_MATCHER`; on the quoted alternative the
name is group 1 and the number group 3; on the unquoted alternative the name
is group 2 and, when no explicit number was captured and the name is purely
numeric per `CALLERIDNUM_MATCHER`, the name is reused as the number. -/
def CallerID_parse (s : String) : Option (String × Option String) :=
  match s.data with
  | '"' :: rest =>
    (tryQuoted rest).map fun p => (String.mk p.1, p.2.map String.mk)
  | l =>
    (tryUnquoted l).map fun p =>
      let num : Option (List Char) :=
        match p.2 with
        | some n => some n
        | none => if cidnumMatch p.1 then some p.1 else none
      (String.mk p.1, num.map String.mk)

/-! ## CallerID.rewrite (objects.py lines 884-962) -/

/-- In-memory caller-ID rule state after `CallerID.__init__`: `mode` is absent
when no row with a parseable `callerdisplay` matched; when a rule matched,
`name`/`num` are the parsed name and optional number. -/
structure CidRule where
  mode : Option String
  name : String
  num : Option String
deriving DecidableEq

/-- Channel variable space of one call leg; an unset variable reads as `""`. -/
def Env : Type := String → String

/-- Setting one channel variable. -/
def envSet (env : Env) (k v : String) : Env :=
  fun x => if x = k then v else env x

/-- Applying a list of `set_variable` operations in order. -/
def applyOps (env : Env) (ops : List (String × String)) : Env :=
  ops.foldl (fun e p => envSet e p.1 p.2) env

/-- Model of `CallerID.rewrite`: returns the ordered `set_variable` calls performed
(`some []` when nothing is done), or `none` for the unknown-mode error.
Reads `XIVO_CID_REWRITTEN`, `CALLERID(name)` and `CALLERID(num)` from the
environment exactly as the source does. -/
def CallerID_rewrite (r : CidRule) (force_rewrite : Bool) (env : Env) :
    Option (List (String × String)) :=
  if ! pyTruthy r.mode then some []
  else
    let cidrewritten := env ("XIVO_CID_REWRITTEN")
    if force_rewrite || cidrewritten = "" then
      let calleridname0 := env ("CALLERID(name)")
      let calleridnum0 := env ("CALLERID(num)")
      let calleridnum :=
        match r.num with
        | some n => n
        | none => if calleridnum0 = "" then ("unknown") else calleridnum0
      let calleridname :=
        if calleridname0 = "" || calleridname0 = String.mk [Char.ofNat 34, Char.ofNat 34] then
          calleridnum
        else if calleridname0.data.head? = some (Char.ofNat 34)
            && calleridname0.data.getLast? = some (Char.ofNat 34) then
          String.mk (calleridname0.data.drop 1).dropLast
        else calleridname0
      let nameRes : Option String :=
        if (r.mode = some ("prepend") || r.mode = some ("append"))
            && r.name = calleridname && calleridnum = calleridname then
          some calleridname
        else if r.mode = some ("prepend") then
          some (r.name ++ (" - ") ++ calleridname)
        else if r.mode = some ("overwrite") then some r.name
        else if r.mode = some ("append") then
          some (calleridname ++ (" - ") ++ r.name)
        else none
      match nameRes with
      | none => none
      | some name =>
        some
          ([(("CALLERID(name-pres)"), ("allowed")),
            (("CALLERID(num-pres)"), ("allowed")),
            (("CALLERID(all)"),
              String.mk (Char.ofNat 34 :: name.data ++ [Char.ofNat 34]) ++ (" <") ++ calleridnum ++ (">"))]
            ++ (if force_rewrite then [] else [(("XIVO_CID_REWRITTEN"), ("1"))]))
    else some []

/-- The spec's resolution of the current number: an explicit rule number
always wins; an absent current number defaults to the literal `unknown`. -/
def specResolvedNumber (r : CidRule) (curNum : String) : String :=
  match r.num with
  | some n => n
  | none => if curNum = "" then ("unknown") else curNum

/-- The spec's resolution of the current name: an absent or purely-quote-empty
name defaults to the resolved number; a quote-wrapped name has its quotes
stripped. -/
def specResolvedName (curName resolvedNum : String) : String :=
  if curName = "" || curName = String.mk [Char.ofNat 34, Char.ofNat 34] then resolvedNum
  else if curName.data.head? = some (Char.ofNat 34)
      && curName.data.getLast? = some (Char.ofNat 34) then
    String.mk (curName.data.drop 1).dropLast
  else curName

/-- The spec's mode combination, with the degenerate self-referential
exception for `prepend`/`append`. -/
def specFinalName (r : CidRule) (name num : String) : String :=
  if (r.mode = some ("prepend") || r.mode = some ("append"))
      && r.name = name && num = name then name
  else if r.mode = some ("prepend") then r.name ++ (" - ") ++ name
  else if r.mode = some ("overwrite") then r.name
  else name ++ (" - ") ++ r.name

/-! ## ScheduleDataMapper.get_from_path (objects.py lines 737-792) -/

/-- A schedule action triple (kind, target id, arguments), transported
opaquely. -/
structure SchedAction where
  action : Option String
  actionid : Option String
  actionargs : Option String
deriving DecidableEq

/-- One stored `schedule_time` row. -/
structure SchedPeriodRow where
  mode : String
  hours : Option String
  weekdays : Option String
  monthdays : Option String
  months : Option String
  action : Option String
  actionid : Option String
  actionargs : Option String
deriving DecidableEq

/-- A built period: the four time dimensions handed to the period builder,
plus the per-period action attached to closed periods. -/
structure SchedPeriod where
  hours : Option String
  weekdays : Option String
  monthdays : Option String
  months : Option String
  action : Option SchedAction
deriving DecidableEq

/-- The schedule value returned by the mapper: the distinguished always-open
schedule, or a built schedule. -/
inductive ScheduleObj where
  | alwaysOpened
  | schedule (opened : List SchedPeriod) (closed : List SchedPeriod)
      (default : SchedAction) (timezone : String)
deriving DecidableEq

/-- The joined `schedule_path`/`schedule` row. -/
structure SchedPathRow where
  timezone : Option String
  fallback_action : Option String
  fallback_actionid : Option String
  fallback_actionargs : Option String
deriving DecidableEq

/-- The period loop of `get_from_path`: periods with mode `opened` go to the
opened list without an action; all others go to the closed list carrying
their own action; stored order is preserved in both lists. -/
def buildPeriods : List SchedPeriodRow → List SchedPeriod × List SchedPeriod
  | [] => ([], [])
  | r :: rest =>
    let built := buildPeriods rest
    if r.mode = ("opened") then
      (⟨r.hours, r.weekdays, r.monthdays, r.months, none⟩ :: built.1, built.2)
    else
      (built.1,
        ⟨r.hours, r.weekdays, r.monthdays, r.months,
          some ⟨r.action, r.actionid, r.actionargs⟩⟩ :: built.2)

/-- Model of `ScheduleDataMapper.get_from_path`: no stored row yields the always-open
schedule; otherwise build a `Schedule` from the stored periods, the fallback
default action, and the schedule timezone (falling back to the global
timezone when the schedule's is absent or empty). -/
def ScheduleDataMapper_get_from_path (row : Option SchedPathRow)
    (globalTimezone : String) (periods : List SchedPeriodRow) : ScheduleObj :=
  match row with
  | none => .alwaysOpened
  | some r =>
    let timezone :=
      match r.timezone with
      | none => globalTimezone
      | some t => if t = "" then globalTimezone else t
    let default_action : SchedAction :=
      ⟨r.fallback_action, r.fallback_actionid, r.fallback_actionargs⟩
    let built := buildPeriods periods
    .schedule built.1 built.2 default_action timezone

/-- Result of evaluating a schedule at a point in time. -/
inductive SchedState where
  | opened
  | closed (action : SchedAction)
deriving DecidableEq

/-- Modelled from the spec: the schedule evaluator of the companion
`wazo_agid.schedule` module (not part of the analyzed sources).  Per spec
§4.2: the always-open schedule is always open; otherwise the result is open
iff some opened period matches, else closed with the first matching closed
period's action (its own action if attached, else the default), else closed
with the default action.  `pmatch` abstracts the period predicate at the
timezone-normalized timestamp. -/
def scheduleComputeState (pmatch : SchedPeriod → Bool) : ScheduleObj → SchedState
  | .alwaysOpened => .opened
  | .schedule opened closed dflt _ =>
    if opened.any pmatch then .opened
    else
      match closed.find? pmatch with
      | some p => .closed (p.action.getD dflt)
      | none => .closed dflt

/-! ## User.toggle_feature and VMBox.toggle_enable (objects.py 379-409, 150-164) -/

/-- The in-memory flags of a `User` touched by `toggle_feature`. -/
structure UserFlags where
  enablevoicemail : Nat
  call_record_enabled : Bool
deriving DecidableEq

/-- The in-memory `commented` field of a `VMBox`. -/
structure VMBoxFlags where
  commented : Nat
deriving DecidableEq

/-- Outcome of a toggle: normal return, a raised `DBUpdateException`, or a
raised `ValueError`, each carrying the resulting in-memory state. -/
inductive ToggleOutcome (σ : Type) where
  | ok (s : σ)
  | dbError (s : σ)
  | valueError (s : σ)
deriving DecidableEq

/-- Model of `User.toggle_feature`: compute the toggled value, run the update, assign
the in-memory flag, and only then check the affected row count, raising
`DBUpdateException` when it is not 1 — with the flag already flipped. -/
def User_toggle_feature (u : UserFlags) (feature : String) (rowcount : Int) :
    ToggleOutcome UserFlags :=
  if feature = ("enablevoicemail") then
    let enabled : Nat := if u.enablevoicemail = 0 then 1 else 0
    let u2 := { u with enablevoicemail := enabled }
    if rowcount ≠ 1 then .dbError u2 else .ok u2
  else if feature = ("callrecord") then
    let enabled := ! u.call_record_enabled
    let u2 := { u with call_record_enabled := enabled }
    if rowcount ≠ 1 then .dbError u2 else .ok u2
  else .valueError u

/-- Model of `VMBox.toggle_enable`: compute the new `commented` value, run the update,
check the row count first, and assign the in-memory field only on success. -/
def VMBox_toggle_enable (v : VMBoxFlags) (enabled : Option Bool) (rowcount : Int) :
    ToggleOutcome VMBoxFlags :=
  let newCommented : Nat :=
    match enabled with
    | none => if v.commented = 0 then 1 else 0
    | some b => if b then 0 else 1
  if rowcount ≠ 1 then .dbError v
  else .ok { v with commented := newCommented }

/-- The `set_variable` calls of a successful caller-ID rewrite, expressed
through the spec's resolution functions: both presentation variables forced
to `allowed`, the combined identity written as `"name" <number>`, and the
one-shot marker appended exactly when the rewrite is not forced. -/
def cidSpecOps (r : CidRule) (force_rewrite : Bool) (env : Env) :
    List (String × String) :=
  let num := specResolvedNumber r (env ("CALLERID(num)"))
  let name := specFinalName r (specResolvedName (env ("CALLERID(name)")) num) num
  [(("CALLERID(name-pres)"), ("allowed")),
   (("CALLERID(num-pres)"), ("allowed")),
   (("CALLERID(all)"),
     String.mk (Char.ofNat 34 :: name.data ++ [Char.ofNat 34]) ++ (" <") ++ num ++ (">"))]
    ++ (if force_rewrite then [] else [(("XIVO_CID_REWRITTEN"), ("1"))])

/-! ## Helper lemmas -/

theorem replaceChar_append (c : Char) (r a b : List Char) :
    replaceChar c r (a ++ b) = replaceChar c r a ++ replaceChar c r b := by
  induction a with
  | nil => rfl
  | cons x xs ih => simp [replaceChar, ih]

theorem chained_replace_eq_escape (l : List Char) :
    replaceChar '\n' [' ']
      (replaceChar (Char.ofNat 34) ['\\', Char.ofNat 34]
        (replaceChar '\\' ['\\', '\\'] l)) = pyEscape l := by
  induction l with
  | nil => rfl
  | cons c cs ih =>
    simp only [replaceChar, replaceChar_append, pyEscape, escChar]
    rw [← ih]
    by_cases h1 : c = '\\'
    · subst h1; simp [replaceChar]
    · by_cases h2 : c = Char.ofNat 34
      · subst h2; simp [replaceChar]
      · by_cases h3 : c = '\n'
        · subst h3; simp [replaceChar]
        · simp [replaceChar, h1, h2, h3]

theorem unesc_cons_ne (c : Char) (l : List Char) (h : c ≠ '\\') :
    unesc (c :: l) = c :: unesc l := by
  cases l with
  | nil => rfl
  | cons c2 rest => simp [unesc, h]

theorem unesc_escape (l : List Char) : unesc (pyEscape l) = collapseNL l := by
  induction l with
  | nil => rfl
  | cons c cs ih =>
    by_cases h1 : c = '\\'
    · subst h1
      have he : pyEscape ('\\' :: cs) = '\\' :: '\\' :: pyEscape cs := by
        simp [pyEscape, escChar]
      rw [he]
      simp [unesc, ih, collapseNL]
    · by_cases h2 : c = Char.ofNat 34
      · subst h2
        have he : pyEscape (Char.ofNat 34 :: cs)
            = '\\' :: Char.ofNat 34 :: pyEscape cs := by
          simp [pyEscape, escChar]
        rw [he]
        simp [unesc, ih, collapseNL]
      · by_cases h3 : c = '\n'
        · subst h3
          have he : pyEscape ('\n' :: cs) = ' ' :: pyEscape cs := by
            simp [pyEscape, escChar, h1, h2]
          rw [he, unesc_cons_ne ' ' _ (by decide), ih]
          simp [collapseNL]
        · have he : pyEscape (c :: cs) = c :: pyEscape cs := by
            simp [pyEscape, escChar, h1, h2, h3]
          rw [he, unesc_cons_ne c _ h1, ih]
          simp [collapseNL, h3]

theorem collapseNL_of_no_newline (l : List Char) (h : '\n' ∉ l) :
    collapseNL l = l := by
  induction l with
  | nil => rfl
  | cons c cs ih =>
    simp only [List.mem_cons, not_or] at h
    have hc : c ≠ '\n' := fun hh => h.1 hh.symm
    have ih2 := ih h.2
    simp only [collapseNL] at ih2
    simp [collapseNL, hc, ih2]

theorem unesc_escape_of_no_newline (l : List Char) (h : '\n' ∉ l) :
    unesc (pyEscape l) = l := by
  rw [unesc_escape]
  exact collapseNL_of_no_newline l h

theorem processTokens_clean (ts : List KVToken) :
    ∀ d, (∀ t ∈ ts, t.data ≠ ("hangup") ∧ ¬(t.key = ("result") ∧ t.value = ("-1"))) →
    processTokens d ts = .ok (ts.foldl (fun d t => insertKV d t.key t.value t.data) d) := by
  induction ts with
  | nil => intro d _; rfl
  | cons t rest ih =>
    intro d h
    have ht := h t (by simp)
    have hrest : ∀ t2 ∈ rest, t2.data ≠ ("hangup") ∧ ¬(t2.key = ("result") ∧ t2.value = ("-1")) :=
      fun t2 h2 => h t2 (by simp [h2])
    simp only [processTokens, List.foldl]
    rw [if_neg (by simpa using ht.1), if_neg (by simpa [Bool.and_eq_true] using ht.2)]
    exact ih _ hrest

theorem processTokens_hangup (ts : List KVToken) :
    ∀ d, (∃ t ∈ ts, t.data = ("hangup")) →
    (∀ t ∈ ts, ¬(t.key = ("result") ∧ t.value = ("-1"))) →
    processTokens d ts = .resultHangup := by
  induction ts with
  | nil => intro d h _; simp at h
  | cons t rest ih =>
    intro d hex hall
    simp only [processTokens]
    by_cases hd : t.data = ("hangup")
    · rw [if_pos hd]
    · rw [if_neg hd,
        if_neg (by simpa [Bool.and_eq_true] using hall t (by simp))]
      apply ih
      · rcases hex with ⟨t2, ht2, hd2⟩
        rcases List.mem_cons.mp ht2 with h1 | h1
        · exact absurd (h1 ▸ hd2) hd
        · exact ⟨t2, h1, hd2⟩
      · exact fun t2 h2 => hall t2 (by simp [h2])

theorem processTokens_appError (ts : List KVToken) :
    ∀ d, (∃ t ∈ ts, t.key = ("result") ∧ t.value = ("-1")) →
    (∀ t ∈ ts, t.data ≠ ("hangup")) →
    processTokens d ts = .appError := by
  induction ts with
  | nil => intro d h _; simp at h
  | cons t rest ih =>
    intro d hex hall
    simp only [processTokens]
    rw [if_neg (hall t (by simp))]
    by_cases hk : t.key = ("result") ∧ t.value = ("-1")
    · rw [if_pos (by simp [hk.1, hk.2])]
    · rw [if_neg (by simpa [Bool.and_eq_true] using hk)]
      apply ih
      · rcases hex with ⟨t2, ht2, hd2⟩
        rcases List.mem_cons.mp ht2 with h1 | h1
        · exact absurd (h1 ▸ hd2) hk
        · exact ⟨t2, h1, hd2⟩
      · exact fun t2 h2 => hall t2 (by simp [h2])

theorem scan520_spec (mid : List String) :
    ∀ (acc : List (List Char)) (l : String) (post : List String),
    (∀ m ∈ mid, (pyStrip m.data).take 3 ≠ ['5', '2', '0']) →
    (pyStrip l.data).take 3 = ['5', '2', '0'] →
    scan520 acc (mid ++ l :: post)
      = some (acc ++ mid.map (fun m => pyStrip m.data) ++ [pyStrip l.data]) := by
  induction mid with
  | nil =>
    intro acc l post _ hl
    simp [scan520, hl]
  | cons m rest ih =>
    intro acc l post hmid hl
    have hm := hmid m (by simp)
    simp only [List.cons_append, scan520]
    rw [if_neg hm]
    have hr := ih (acc ++ [pyStrip m.data]) l post (fun m2 h2 => hmid m2 (by simp [h2])) hl
    simp only [List.append_eq] at hr ⊢
    rw [hr]
    simp

theorem CallerID_rewrite_eq (r : CidRule) (force_rewrite : Bool) (env : Env)
    (hmode : r.mode = some ("overwrite") ∨ r.mode = some ("prepend")
      ∨ r.mode = some ("append"))
    (hallow : force_rewrite = true ∨ env ("XIVO_CID_REWRITTEN") = "") :
    CallerID_rewrite r force_rewrite env = some (cidSpecOps r force_rewrite env) := by
  have htruthy : pyTruthy r.mode = true := by
    rcases hmode with h | h | h <;> simp [pyTruthy, h]
  have hguard : (force_rewrite || env ("XIVO_CID_REWRITTEN") = "") = true := by
    rcases hallow with h | h <;> simp [h]
  have e3 : ∀ name num : String,
      (if (r.mode = some ("prepend") || r.mode = some ("append"))
          && r.name = name && num = name then
        some name
      else if r.mode = some ("prepend") then
        some (r.name ++ (" - ") ++ name)
      else if r.mode = some ("overwrite") then some r.name
      else if r.mode = some ("append") then
        some (name ++ (" - ") ++ r.name)
      else none) = some (specFinalName r name num) := by
    intro name num
    rcases hmode with h | h | h <;> simp [specFinalName, h] <;> split_ifs <;> rfl
  simp only [CallerID_rewrite, htruthy, hguard, Bool.not_true, Bool.false_eq_true,
    if_false, eq_self_iff_true, if_true]
  rw [e3]
  rfl

theorem buildPeriods_eq (periods : List SchedPeriodRow) :
    buildPeriods periods =
      ((periods.filter (fun p => p.mode = ("opened"))).map
          (fun p => ⟨p.hours, p.weekdays, p.monthdays, p.months, none⟩),
        (periods.filter (fun p => p.mode ≠ ("opened"))).map
          (fun p => ⟨p.hours, p.weekdays, p.monthdays, p.months,
            some ⟨p.action, p.actionid, p.actionargs⟩⟩)) := by
  induction periods with
  | nil => rfl
  | cons r rest ih =>
    by_cases h : r.mode = ("opened") <;>
      simp [buildPeriods, h, ih, List.filter_cons]

/-! ## Claim theorems -/

/-- Claim C1 (counterexample): the claim states that `parse('John Doe')`
returns name `John Doe` with number absent; in fact the unquoted-name
character class of `CALLERID_MATCHER` contains no space, so the whole string
fails to match and `parse` returns nothing. -/
theorem claim_C1_counterexample :
    CallerID_parse ("John Doe") ≠ some (("John Doe"), none)
      ∧ CallerID_parse ("John Doe") = none := by
  constructor <;> decide

/-- Claim C1 (amended): `parse('"John Doe" <5551234>')` yields name
`John Doe` and number `5551234`; `parse('5551234')` (unquoted, all-digit,
no angle bracket) yields name and number both `5551234`; an unquoted
non-numeric token without spaces such as `John` yields name `John` with
number absent; and `parse('John Doe')` (unquoted name containing a space)
fails to match the grammar and returns nothing. -/
theorem claim_C1 :
    CallerID_parse (String.mk (Char.ofNat 34 :: ("John Doe").data ++ [Char.ofNat 34])
        ++ (" <5551234>"))
      = some (("John Doe"), some ("5551234"))
    ∧ CallerID_parse ("5551234") = some (("5551234"), some ("5551234"))
    ∧ CallerID_parse ("John") = some (("John"), none)
    ∧ CallerID_parse ("John Doe") = none := by
  refine ⟨?_, ?_, ?_, ?_⟩ <;> decide

/-- Claim C6: `execute` composes `send_command` then `get_result`; a write
failure with errno 32 (broken pipe) is reclassified as the SIGPIPE-hangup
condition; a write failure with any other errno propagates unchanged. -/
theorem claim_C6 (lines : List String) (errno : Int) :
    FastAGI_execute none lines = .res (FastAGI_get_result lines)
    ∧ FastAGI_execute (some 32) lines = .sigpipeHangup
    ∧ (errno ≠ 32 → FastAGI_execute (some errno) lines = .ioError errno) := by
  refine ⟨rfl, rfl, fun h => ?_⟩
  simp [FastAGI_execute, h]

/-- Claim C6 (witness): a broken-pipe write on a concrete command is
reclassified, and an errno-5 write failure propagates as an I/O error. -/
theorem claim_C6_witness :
    FastAGI_execute (some 5) ([]) = .ioError 5 :=
  (claim_C6 ([]) 5).2.2 (by decide)

/-- Claim C7: `_quote` produces `"` ++ e(s) ++ `"` where e escapes each
backslash and double-quote with a backslash and turns each newline into a
space; unescaping the escaped content recovers the original characters up to
newline-collapsing, and exactly for newline-free strings. -/
theorem claim_C7 (s : String) :
    FastAGI_quote s = String.mk (Char.ofNat 34 :: pyEscape s.data ++ [Char.ofNat 34])
    ∧ unesc (pyEscape s.data) = collapseNL s.data
    ∧ ('\n' ∉ s.data → unesc (pyEscape s.data) = s.data) := by
  refine ⟨?_, unesc_escape s.data, unesc_escape_of_no_newline s.data⟩
  unfold FastAGI_quote
  rw [chained_replace_eq_escape]

/-- Claim C7 (witness): round trip at a concrete string containing a
backslash and a double-quote and no newline. -/
theorem claim_C7_witness :
    FastAGI_quote (String.mk ['a', '\\', Char.ofNat 34, 'b'])
        = String.mk (Char.ofNat 34 :: pyEscape ['a', '\\', Char.ofNat 34, 'b']
            ++ [Char.ofNat 34])
    ∧ unesc (pyEscape ['a', '\\', Char.ofNat 34, 'b']) = ['a', '\\', Char.ofNat 34, 'b'] := by
  have h := claim_C7 (String.mk ['a', '\\', Char.ofNat 34, 'b'])
  exact ⟨h.1, h.2.2 (by decide)⟩

/-- Claim C9: `get_variable` and `get_full_variable` never propagate the
result-hangup condition: when the underlying execute raises it, they return
the literal value `hangup` instead. -/
theorem claim_C9 (name : String) (channel : Option String) (send : Option Int)
    (lines : List String) :
    FastAGI_get_variable name send lines ≠ .raised (.res .resultHangup)
    ∧ FastAGI_get_full_variable name channel send lines ≠ .raised (.res .resultHangup)
    ∧ (FastAGI_execute send lines = .res .resultHangup →
        FastAGI_get_variable name send lines = .val ("hangup")
        ∧ FastAGI_get_full_variable name channel send lines = .val ("hangup")) := by
  cases hx : FastAGI_execute send lines with
  | res r =>
    cases r <;>
      simp [FastAGI_get_variable, FastAGI_get_full_variable, hx]
  | sigpipeHangup =>
    simp [FastAGI_get_variable, FastAGI_get_full_variable, hx]
  | ioError e =>
    simp [FastAGI_get_variable, FastAGI_get_full_variable, hx]

/-- Claim C9 (witness): at the concrete response `200 result=1 (hangup)`
the read raises result-hangup inside execute and both getters return the
value `hangup`. -/
theorem claim_C9_witness :
    FastAGI_get_variable ("FOO") none (["200 result=1 (hangup)"]) = .val ("hangup")
    ∧ FastAGI_get_full_variable ("FOO") none none (["200 result=1 (hangup)"])
        = .val ("hangup") :=
  (claim_C9 ("FOO") none none (["200 result=1 (hangup)"])).2.2 (by decide)

/-- Claim C10: `User.toggle_feature` is not atomic on failure: it flips the
in-memory flag before checking the row count, so on a `DBUpdateException`
the flag stays flipped; `VMBox.toggle_enable` checks the row count first and
leaves `commented` unchanged when it raises. -/
theorem claim_C10 (u : UserFlags) (v : VMBoxFlags) (enabled : Option Bool)
    (rowcount : Int) (h : rowcount ≠ 1) :
    User_toggle_feature u ("enablevoicemail") rowcount
        = .dbError { u with enablevoicemail := if u.enablevoicemail = 0 then 1 else 0 }
    ∧ (if u.enablevoicemail = 0 then (1 : Nat) else 0) ≠ u.enablevoicemail
    ∧ User_toggle_feature u ("callrecord") rowcount
        = .dbError { u with call_record_enabled := ! u.call_record_enabled }
    ∧ (! u.call_record_enabled) ≠ u.call_record_enabled
    ∧ VMBox_toggle_enable v enabled rowcount = .dbError v := by
  refine ⟨?_, ?_, ?_, ?_, ?_⟩
  · simp [User_toggle_feature, h]
  · by_cases hv : u.enablevoicemail = 0 <;> simp [hv] <;> omega
  · simp [User_toggle_feature, h]
  · cases hc : u.call_record_enabled <;> simp
  · simp [VMBox_toggle_enable, h]

/-- Claim C10 (witness): concrete failed toggles with an affected row count
of 0. -/
theorem claim_C10_witness :
    User_toggle_feature ⟨0, false⟩ ("enablevoicemail") 0 = .dbError ⟨1, false⟩
    ∧ VMBox_toggle_enable ⟨1⟩ none 0 = .dbError ⟨1⟩ := by
  have h := claim_C10 ⟨0, false⟩ ⟨1⟩ none 0 (by decide)
  exact ⟨h.1, h.2.2.2.2⟩

theorem replaceChar_single (c d : Char) (l : List Char) :
    replaceChar c [d] l = l.map (fun x => if x = c then d else x) := by
  induction l with
  | nil => rfl
  | cons x xs ih => by_cases h : x = c <;> simp [replaceChar, h, ih]

/-- Claim C2: with no stored dialaction row the resolver emits action `none`
and both args as empty strings under the `XIVO_FWD_<CATEGORY>_<EVENT>_*`
naming scheme; the `_ISDA` marker is set to `1` exactly when the category is
not one of `none`, `endcall:busy`, `endcall:congestion`, `endcall:hangup`;
and for configured rows every `|` of actionarg1 is replaced by `;` while
actionarg2 passes through, absent args becoming empty strings. -/
theorem claim_C2 (event category action : String) (a1 a2 : Option String) :
    DialAction_set_variables (DialAction_init event category none)
      = [(("XIVO_FWD_") ++ pyUpper (category ++ ("_") ++ event) ++ ("_ACTION"), ("none"))]
        ++ (if category ∈ category_no_isda then []
            else
              [(("XIVO_FWD_") ++ pyUpper (category ++ ("_") ++ event) ++ ("_ISDA"), ("1"))])
        ++ [(("XIVO_FWD_") ++ pyUpper (category ++ ("_") ++ event) ++ ("_ACTIONARG1"), ("")),
            (("XIVO_FWD_") ++ pyUpper (category ++ ("_") ++ event) ++ ("_ACTIONARG2"), (""))]
    ∧ DialAction_set_variables (DialAction_init event category (some (action, a1, a2)))
      = [(("XIVO_FWD_") ++ pyUpper (category ++ ("_") ++ event) ++ ("_ACTION"), action)]
        ++ (if category ∈ category_no_isda then []
            else
              [(("XIVO_FWD_") ++ pyUpper (category ++ ("_") ++ event) ++ ("_ISDA"), ("1"))])
        ++ [(("XIVO_FWD_") ++ pyUpper (category ++ ("_") ++ event) ++ ("_ACTIONARG1"),
              String.mk ((a1.getD ("")).data.map (fun c => if c = '|' then ';' else c))),
            (("XIVO_FWD_") ++ pyUpper (category ++ ("_") ++ event) ++ ("_ACTIONARG2"),
              a2.getD (""))] := by
  have harg1 :
      (if pyTruthy a1 then String.mk (replaceChar '|' [';'] (a1.getD ("")).data) else (""))
        = String.mk ((a1.getD ("")).data.map (fun c => if c = '|' then ';' else c)) := by
    match a1 with
    | none => rfl
    | some s =>
      by_cases hs : s = ""
      · subst hs; rfl
      · simp [pyTruthy, hs, replaceChar_single]
  have harg2 : (if pyTruthy a2 then a2.getD ("") else ("")) = a2.getD ("") := by
    match a2 with
    | none => rfl
    | some s =>
      by_cases hs : s = ""
      · subst hs; rfl
      · simp [pyTruthy, hs]
  have hb : category_no_isda.contains category = decide (category ∈ category_no_isda) := by
    simp [List.contains]
  constructor <;>
  · simp only [DialAction_set_variables, DialAction_set_agi_variables,
      DialAction_init, harg1, harg2, hb]
    by_cases hm : category ∈ category_no_isda <;> simp [hm, pyTruthy]

/-- Claim C4: on a matched rule with an allowed rewrite, the rule's explicit
number wins, an empty current number defaults to `unknown`, an empty or
`""` current name defaults to the resolved number, a quote-wrapped name is
stripped, the three modes produce overwrite / `rule - current` /
`current - rule` with the degenerate self-referential exception, and both
presentation variables are set to `allowed`. -/
theorem claim_C4 (r : CidRule) (force_rewrite : Bool) (env : Env)
    (hmode : r.mode = some ("overwrite") ∨ r.mode = some ("prepend")
      ∨ r.mode = some ("append"))
    (hallow : force_rewrite = true ∨ env ("XIVO_CID_REWRITTEN") = "") :
    CallerID_rewrite r force_rewrite env
      = some
          ([(("CALLERID(name-pres)"), ("allowed")),
            (("CALLERID(num-pres)"), ("allowed")),
            (("CALLERID(all)"),
              String.mk (Char.ofNat 34 ::
                  (specFinalName r
                    (specResolvedName (env ("CALLERID(name)"))
                      (specResolvedNumber r (env ("CALLERID(num)"))))
                    (specResolvedNumber r (env ("CALLERID(num)")))).data
                  ++ [Char.ofNat 34])
                ++ (" <") ++ specResolvedNumber r (env ("CALLERID(num)")) ++ (">"))]
            ++ (if force_rewrite then [] else [(("XIVO_CID_REWRITTEN"), ("1"))])) := by
  rw [CallerID_rewrite_eq r force_rewrite env hmode hallow]
  rfl

/-- Claim C4 (witness): prepend rule with no explicit number on a leg whose
name and number variables are unset. -/
theorem claim_C4_witness :
    CallerID_rewrite ⟨some ("prepend"), ("Boss"), none⟩ false (fun _ => (""))
      = some
          [(("CALLERID(name-pres)"), ("allowed")),
            (("CALLERID(num-pres)"), ("allowed")),
            (("CALLERID(all)"), ("\"Boss - unknown\" <unknown>")),
            (("XIVO_CID_REWRITTEN"), ("1"))] := by
  have h := claim_C4 ⟨some ("prepend"), ("Boss"), none⟩ false (fun _ => (""))
    (Or.inr (Or.inl rfl)) (Or.inr rfl)
  rw [h]
  rfl

/-- Claim C5: with a matched rule and `force_rewrite` false, the first
rewrite mutates the variables and sets the one-shot marker
`XIVO_CID_REWRITTEN`, and a second rewrite on the resulting leg performs no
mutation at all; with `force_rewrite` true the marker is neither consulted
nor written. -/
theorem claim_C5 (r : CidRule) (env : Env)
    (hmode : r.mode = some ("overwrite") ∨ r.mode = some ("prepend")
      ∨ r.mode = some ("append"))
    (hmarker : env ("XIVO_CID_REWRITTEN") = "") :
    (CallerID_rewrite r false env = some (cidSpecOps r false env)
      ∧ cidSpecOps r false env ≠ []
      ∧ (("XIVO_CID_REWRITTEN"), ("1")) ∈ cidSpecOps r false env
      ∧ CallerID_rewrite r false (applyOps env (cidSpecOps r false env)) = some [])
    ∧ (∀ v, CallerID_rewrite r true (envSet env ("XIVO_CID_REWRITTEN") v)
        = CallerID_rewrite r true env)
    ∧ (∀ p ∈ cidSpecOps r true env, p.1 ≠ ("XIVO_CID_REWRITTEN")) := by
  have htruthy : pyTruthy r.mode = true := by
    rcases hmode with h | h | h <;> simp [pyTruthy, h]
  refine ⟨⟨CallerID_rewrite_eq r false env hmode (Or.inr hmarker), ?_, ?_, ?_⟩, ?_, ?_⟩
  · simp [cidSpecOps]
  · simp [cidSpecOps]
  · have hget : applyOps env (cidSpecOps r false env) ("XIVO_CID_REWRITTEN") = ("1") := by
      simp [cidSpecOps, applyOps, envSet]
    simp [CallerID_rewrite, htruthy, hget]
  · intro v
    rw [CallerID_rewrite_eq r true (envSet env ("XIVO_CID_REWRITTEN") v) hmode (Or.inl rfl),
      CallerID_rewrite_eq r true env hmode (Or.inl rfl)]
    simp [cidSpecOps, envSet]
  · intro p hp
    simp only [cidSpecOps, if_pos, List.append_nil, List.mem_cons] at hp
    rcases hp with h | h | h | h <;> simp_all

/-- Claim C5 (witness): with a forced rewrite, a stale marker value does not
change the outcome. -/
theorem claim_C5_witness :
    CallerID_rewrite ⟨some ("overwrite"), ("Ops"), none⟩ true
        (envSet (fun _ => ("")) ("XIVO_CID_REWRITTEN") ("stale"))
      = CallerID_rewrite ⟨some ("overwrite"), ("Ops"), none⟩ true (fun _ => ("")) :=
  (claim_C5 ⟨some ("overwrite"), ("Ops"), none⟩ (fun _ => ("")) (Or.inl rfl) rfl).2.1
    ("stale")

/-- Claim C8: a routing path with no stored schedule row yields the
distinguished always-open schedule (whose evaluation is always open); a
stored row builds a schedule whose opened periods are exactly the stored
periods with mode `opened`, whose closed periods are the remaining stored
periods each carrying its own action, with the fallback default action and
the schedule timezone (global timezone when the schedule has none); and a
configured schedule matching nothing evaluates closed with the default
action rather than as always open. -/
theorem claim_C8 (globalTz : String) (periods : List SchedPeriodRow)
    (pmatch : SchedPeriod → Bool) (r : SchedPathRow) :
    ScheduleDataMapper_get_from_path none globalTz periods = .alwaysOpened
    ∧ scheduleComputeState pmatch (ScheduleDataMapper_get_from_path none globalTz periods)
        = .opened
    ∧ ScheduleDataMapper_get_from_path (some r) globalTz periods
        = .schedule
            ((periods.filter (fun p => p.mode = ("opened"))).map
              (fun p => ⟨p.hours, p.weekdays, p.monthdays, p.months, none⟩))
            ((periods.filter (fun p => p.mode ≠ ("opened"))).map
              (fun p => ⟨p.hours, p.weekdays, p.monthdays, p.months,
                some ⟨p.action, p.actionid, p.actionargs⟩⟩))
            ⟨r.fallback_action, r.fallback_actionid, r.fallback_actionargs⟩
            (match r.timezone with
              | none => globalTz
              | some t => if t = "" then globalTz else t)
    ∧ (∀ (op cl : List SchedPeriod) (dflt : SchedAction) (tz : String),
        (∀ p ∈ op, pmatch p = false) → (∀ p ∈ cl, pmatch p = false) →
        scheduleComputeState pmatch (.schedule op cl dflt tz) = .closed dflt) := by
  refine ⟨rfl, rfl, ?_, ?_⟩
  · simp [ScheduleDataMapper_get_from_path, buildPeriods_eq]
  · intro op cl dflt tz hop hcl
    have hany : op.any pmatch = false := by
      simp only [List.any_eq_false]
      intro p hp
      simp [hop p hp]
    have hfind : cl.find? pmatch = none :=
      List.find?_eq_none.mpr (fun x hx => by simp [hcl x hx])
    simp [scheduleComputeState, hany, hfind]

/-- Claim C8 (witness): an empty configured schedule evaluates closed with
its default action, while an unconfigured path is always open. -/
theorem claim_C8_witness :
    scheduleComputeState (fun _ => false)
        (.schedule [] [] ⟨some ("none"), none, none⟩ ("UTC"))
      = .closed ⟨some ("none"), none, none⟩ :=
  (claim_C8 ("UTC") [] (fun _ => false) ⟨none, none, none, none⟩).2.2.2
    [] [] ⟨some ("none"), none, none⟩ ("UTC") (by simp) (by simp)

/-- Claim C3: for a response line with leading numeric code 200, the parsed
tokens raise result-hangup when any token's auxiliary data is `hangup`,
raise application-error when the `result` key has value `-1`, and otherwise
the parsed mapping is returned; for code 520 the reader consumes lines until
one beginning with `520` recurs and raises usage-error with all those lines
(both `520` lines included) joined as the detail; any code other than 200,
510 and 520 raises the unknown-result condition. -/
theorem claim_C3 (raw : String) (rest : List String) (code : Nat) (toks : List KVToken)
    (hd : (pyStrip raw.data).takeWhile Char.isDigit ≠ [])
    (hcode : code = digitsToNat ((pyStrip raw.data).takeWhile Char.isDigit))
    (htoks : toks = findallKV
      ((((pyStrip raw.data).drop
            ((pyStrip raw.data).takeWhile Char.isDigit).length).dropWhile pyIsWs).takeWhile
        (fun c => c ≠ '\n'))) :
    (code = 200 → (∀ t ∈ toks, t.data ≠ ("hangup")) →
      (∀ t ∈ toks, ¬(t.key = ("result") ∧ t.value = ("-1"))) →
      FastAGI_get_result (raw :: rest)
        = .ok (toks.foldl (fun d t => insertKV d t.key t.value t.data) initDict))
    ∧ (code = 200 → (∃ t ∈ toks, t.data = ("hangup")) →
        (∀ t ∈ toks, ¬(t.key = ("result") ∧ t.value = ("-1"))) →
        FastAGI_get_result (raw :: rest) = .resultHangup)
    ∧ (code = 200 → (∃ t ∈ toks, t.key = ("result") ∧ t.value = ("-1")) →
        (∀ t ∈ toks, t.data ≠ ("hangup")) →
        FastAGI_get_result (raw :: rest) = .appError)
    ∧ (code = 520 → ∀ (mid : List String) (l : String) (post : List String),
        rest = mid ++ l :: post →
        (∀ m ∈ mid, (pyStrip m.data).take 3 ≠ ['5', '2', '0']) →
        (pyStrip l.data).take 3 = ['5', '2', '0'] →
        FastAGI_get_result (raw :: rest)
          = .usageError (String.mk (joinNL (pyStrip raw.data
              :: (mid.map (fun m => pyStrip m.data) ++ [pyStrip l.data])) ++ ['\n'])))
    ∧ (code ≠ 200 → code ≠ 510 → code ≠ 520 →
        FastAGI_get_result (raw :: rest) = .unknownError code) := by
  subst hcode htoks
  refine ⟨?_, ?_, ?_, ?_, ?_⟩
  · intro h200 h1 h2
    simp only [FastAGI_get_result]
    rw [if_neg hd, if_pos h200]
    exact processTokens_clean _ _ (fun t ht => ⟨h1 t ht, h2 t ht⟩)
  · intro h200 h1 h2
    simp only [FastAGI_get_result]
    rw [if_neg hd, if_pos h200]
    exact processTokens_hangup _ _ h1 h2
  · intro h200 h1 h2
    simp only [FastAGI_get_result]
    rw [if_neg hd, if_pos h200]
    exact processTokens_appError _ _ h1 h2
  · intro h520 mid l post hrest hmid hl
    subst hrest
    simp only [FastAGI_get_result]
    rw [if_neg hd, if_neg (by simp [h520]), if_neg (by simp [h520]), if_pos h520]
    rw [scan520_spec mid [pyStrip raw.data] l post hmid hl]
    simp
  · intro h200 h510 h520
    simp only [FastAGI_get_result]
    rw [if_neg hd, if_neg h200, if_neg h510, if_neg h520]

/-- Claim C3 (witness): a concrete hangup response, a concrete usage-error
block, and a concrete unknown code. -/
theorem claim_C3_witness :
    FastAGI_get_result (["200 result=1 (hangup)"]) = .resultHangup
    ∧ FastAGI_get_result (["520 Usage: foo", "bar", "520 End of usage"])
        = .usageError ("520 Usage: foo\nbar\n520 End of usage\n")
    ∧ FastAGI_get_result (["404 nope"]) = .unknownError 404 := by
  refine ⟨?_, ?_, ?_⟩
  · exact (claim_C3 ("200 result=1 (hangup)") [] 200
      [{ key := ("result"), value := ("1"), data := ("hangup") }]
      (by decide) (by decide) (by decide)).2.1 rfl (by decide) (by decide)
  · have h := (claim_C3 ("520 Usage: foo") (["bar", "520 End of usage"]) 520 []
      (by decide) (by decide) (by decide)).2.2.2.1 rfl
      (["bar"]) ("520 End of usage") [] rfl (by decide) (by decide)
    rw [h]
    rfl
  · exact (claim_C3 ("404 nope") [] 404 [] (by decide) (by decide) (by decide)).2.2.2.2
      (by decide) (by decide) (by decide)
